import Mathlib

/-!
Shallow embedding of the CrazyLib frontend components (search bars, borrow
and return flows, HTTP client wrapper) together with theorems checking the
natural-language specification against the code.
-/

namespace CrazyLib

/-! Data model (spec section 3, shapes used by the components). -/

/-- Model of JavaScript `String.prototype.trim`: drop leading and trailing
whitespace characters. -/
def trimWs (s : String) : String :=
  String.mk (((s.data.dropWhile Char.isWhitespace).reverse.dropWhile
    Char.isWhitespace).reverse)

structure Suggestion where
  id : Nat
  text : String
  author_name : Option String := none
  phone : Option String := none
  passport : Option String := none
deriving DecidableEq

structure Book where
  id : Nat
  title : String
  author_name : Option String := none
  unique_id : String := ""
  copies_count : Nat := 0
  available_copies : Nat := 0
  total_borrowed : Nat := 0
deriving DecidableEq

structure Customer where
  id : Nat
  first_name : String := ""
  last_name : String := ""
  email : String := ""
  birth_date : String := ""
  address : String := ""
deriving DecidableEq

structure BorrowRecord where
  event_id : Nat
  id : Nat
  title : String := ""
  author : String := ""
  borrowed_on : String := ""
deriving DecidableEq

/-! ApiService.request (apiService.js): a fetch response is modelled by its
`ok` flag (2xx), its numeric status and its parsed JSON body (`none` when the
body does not parse as JSON). The thrown error is either a constructed
message (`httpError`) or the platform JSON-parse failure rethrown on a 2xx
body that does not parse (`parseFailure`). -/

structure FetchResp (α : Type) where
  ok : Bool
  status : Nat
  body : Option α
deriving DecidableEq

inductive ReqError where
  | httpError (msg : String)
  | parseFailure
deriving DecidableEq

def genericHttpMsg (status : Nat) : String :=
  "HTTP error! status: " ++ toString status

/-- Embedding of `ApiService.request`: on a non-2xx response the body is
parsed (falling back to an empty object), and the thrown message is
`errorData.detail || generic`; JavaScript `||` treats a missing `detail` and
the empty string alike as falsy. A 2xx response returns the parsed body. -/
def requestLogic (α : Type) (detail : α → Option String) (r : FetchResp α) :
    Except ReqError α :=
  if r.ok then
    match r.body with
    | some b => Except.ok b
    | none => Except.error ReqError.parseFailure
  else
    match r.body.bind detail with
    | some d =>
        if d = "" then Except.error (ReqError.httpError (genericHttpMsg r.status))
        else Except.error (ReqError.httpError d)
    | none => Except.error (ReqError.httpError (genericHttpMsg r.status))

/-- Error-body shape used to instantiate `requestLogic` at concrete inputs:
a JSON object whose only relevant field is `detail`. -/
structure ErrBody where
  detail : Option String
deriving DecidableEq

/-! Customer search bar (`SearchBar` in Searchresult.jsx, second component).
Its `handleInputChange` is an async handler that issues a lookup immediately
on every non-empty input change, with no timer and no staleness tag; a
completion is applied to the suggestion state unconditionally. Network
requests are modelled as an in-flight list; a completion event picks an
in-flight request by its bookkeeping id and carries the server outcome
(`some` suggestions on success, `none` on failure). -/

structure CustState where
  showPopup : Bool
  searchValue : String
  suggestions : List Suggestion
  isLoading : Bool
  inflight : List (Nat × String)
  nextReq : Nat
deriving DecidableEq

def custInit : CustState :=
  { showPopup := false, searchValue := "", suggestions := [], isLoading := false,
    inflight := [], nextReq := 0 }

inductive CustEff where
  | request (id : Nat) (q : String)
  | select (s : Suggestion)
deriving DecidableEq

/-- Embedding of `SearchBar.handleInputChange`: set the value; when the
trimmed value is non-empty, set the loading flag and issue the lookup for
the raw value at once; otherwise clear suggestions and close the popup. -/
def custInput (v : String) (s : CustState) : CustState × List CustEff :=
  let s1 := { s with searchValue := v }
  if trimWs v ≠ "" then
    ({ s1 with
        isLoading := true
        inflight := s1.inflight ++ [(s1.nextReq, v)]
        nextReq := s1.nextReq + 1 },
     [CustEff.request s1.nextReq v])
  else
    ({ s1 with suggestions := [], showPopup := false }, [])

/-- Embedding of the completion of a `searchCustomers` call in
`SearchBar.handleInputChange`: the response is applied unconditionally
(there is no staleness guard in this component). -/
def custComplete (id : Nat) (outcome : Option (List Suggestion)) (s : CustState) :
    CustState × List CustEff :=
  let s0 := { s with inflight := s.inflight.filter (fun p => p.1 ≠ id) }
  match outcome with
  | some r => ({ s0 with suggestions := r, showPopup := true, isLoading := false }, [])
  | none => ({ s0 with suggestions := [], isLoading := false }, [])

/-- Embedding of `SearchBar.handleSelectSuggestion`. -/
def custSelect (sug : Suggestion) (s : CustState) : CustState × List CustEff :=
  ({ s with searchValue := sug.text, showPopup := false }, [CustEff.select sug])

inductive CustEvent where
  | input (v : String)
  | complete (id : Nat) (outcome : Option (List Suggestion))
  | select (sug : Suggestion)
deriving DecidableEq

def custStep (e : CustEvent) (s : CustState) : Option (CustState × List CustEff) :=
  match e with
  | CustEvent.input v => some (custInput v s)
  | CustEvent.complete id o =>
      if s.inflight.any (fun p => p.1 == id) then some (custComplete id o s) else none
  | CustEvent.select sug => some (custSelect sug s)

def custRun : List CustEvent → CustState → Option (CustState × List CustEff)
  | [], s => some (s, [])
  | e :: rest, s =>
    match custStep e s with
    | some (s1, effs) =>
      match custRun rest s1 with
      | some (s2, effs2) => some (s2, effs ++ effs2)
      | none => none
    | none => none

/-! Book search bar (`BookSearchbar.jsx`). The component debounces: the
effect that reacts to an input change cancels the previous timeout, handles
the empty search synchronously, and otherwise increments the request-id ref
and schedules a 300ms timer capturing the trimmed term and the fresh id.
When the timer fires, the current-search ref is set to the captured term,
the loading flag is raised and the lookup is dispatched. On completion the
response is applied only if the captured id still equals the request-id ref
and the captured term still equals the current-search ref. Time is a `Nat`
in milliseconds; a timer scheduled at time t may fire only at t + 300, and
only if no later input cancelled it. -/

structure PendTimer where
  id : Nat
  term : String
  due : Nat
deriving DecidableEq

structure BookState where
  showPopup : Bool
  searchValue : String
  suggestions : List Suggestion
  isLoading : Bool
  selectedBook : Option Book
  currentSearch : String
  requestId : Nat
  pendingTimer : Option PendTimer
  inflight : List (Nat × String)
deriving DecidableEq

def bookInit : BookState :=
  { showPopup := false, searchValue := "", suggestions := [], isLoading := false,
    selectedBook := none, currentSearch := "", requestId := 0,
    pendingTimer := none, inflight := [] }

inductive BookEff where
  | request (id : Nat) (term : String)
  | notify (b : Option Book)
deriving DecidableEq

def requestsOf (effs : List BookEff) : List BookEff :=
  effs.filter fun e =>
    match e with
    | BookEff.request _ _ => true
    | _ => false

/-- Embedding of `BookSearchbar.handleInputChange` followed by the debounced
search effect (which React runs on the `searchValue` change): the handler
resets the selection and notifies the parent when the new value differs from
the selected book title; the effect cancels the pending timeout, clears
everything synchronously on an empty trimmed value (notifying the parent of
no selection), and otherwise allocates a fresh request id and schedules the
300ms timer for the trimmed term. `t` is the time of the keystroke. -/
def bookInput (t : Nat) (v : String) (s : BookState) : BookState × List BookEff :=
  let p1 : BookState × List BookEff :=
    match s.selectedBook with
    | some b =>
      if v ≠ b.title then
        ({ s with searchValue := v, selectedBook := none }, [BookEff.notify none])
      else
        ({ s with searchValue := v }, [])
    | none => ({ s with searchValue := v }, [])
  let s1 := p1.1
  let term := trimWs v
  let s2 := { s1 with pendingTimer := none }
  if term = "" then
    ({ s2 with
        suggestions := []
        showPopup := false
        selectedBook := none
        currentSearch := "" },
     p1.2 ++ [BookEff.notify none])
  else
    ({ s2 with
        requestId := s2.requestId + 1
        pendingTimer := some { id := s2.requestId + 1, term := term, due := t + 300 } },
     p1.2)

/-- The timer callback runs only when a timer is pending and its due time has
arrived (an intervening input would have cancelled it). -/
def fireEnabled (t : Nat) (s : BookState) : Bool :=
  match s.pendingTimer with
  | some tm => tm.due == t
  | none => false

/-- Embedding of the body of the 300ms timeout in the debounced search
effect, up to the `await`: store the captured term in the current-search
ref, raise the loading flag and dispatch the tagged lookup. -/
def bookFire (s : BookState) : BookState × List BookEff :=
  match s.pendingTimer with
  | some tm =>
    ({ s with
        pendingTimer := none
        currentSearch := tm.term
        isLoading := true
        inflight := s.inflight ++ [(tm.id, tm.term)] },
     [BookEff.request tm.id tm.term])
  | none => (s, [])

/-- Embedding of the completion of a `searchBooks` call in the debounced
effect: the response is applied only when the captured request id equals the
request-id ref and the captured term equals the current-search ref (the
stale-response guard); otherwise the completion leaves the component state
unchanged. A `some` outcome carries the suggestion list of a successful
response, `none` is the failure path. -/
def bookComplete (id : Nat) (term : String) (outcome : Option (List Suggestion))
    (s : BookState) : BookState × List BookEff :=
  let s0 := { s with inflight := s.inflight.filter (fun p => p ≠ (id, term)) }
  if s.currentSearch = term ∧ s.requestId = id then
    match outcome with
    | some r => ({ s0 with suggestions := r, showPopup := true, isLoading := false }, [])
    | none => ({ s0 with suggestions := [], isLoading := false }, [])
  else
    (s0, [])

inductive BookEvent where
  | input (v : String)
  | fire
  | complete (id : Nat) (term : String) (outcome : Option (List Suggestion))
deriving DecidableEq

def bookStep (t : Nat) (e : BookEvent) (s : BookState) :
    Option (BookState × List BookEff) :=
  match e with
  | BookEvent.input v => some (bookInput t v s)
  | BookEvent.fire => if fireEnabled t s then some (bookFire s) else none
  | BookEvent.complete id term o =>
      if (id, term) ∈ s.inflight then some (bookComplete id term o s) else none

def bookRun : List (Nat × BookEvent) → BookState → Option (BookState × List BookEff)
  | [], s => some (s, [])
  | (t, e) :: rest, s =>
    match bookStep t e s with
    | some (s1, effs) =>
      match bookRun rest s1 with
      | some (s2, effs2) => some (s2, effs ++ effs2)
      | none => none
    | none => none

/-! Borrow flow (`BorrowBook.jsx`). The local state is the six useState
fields; server interaction is modelled by oracles: the `getBook` result for
the search handler (`none` when the call throws, which includes the
not-found case) and the borrow outcome for the confirm handler. -/

structure BorrowState where
  bookId : String
  bookData : Option Book
  availableCopy : Option Nat
  isSearching : Bool
  isBorrowing : Bool
  errorMessage : String
deriving DecidableEq

def initBorrowState : BorrowState :=
  { bookId := "", bookData := none, availableCopy := none,
    isSearching := false, isBorrowing := false, errorMessage := "" }

inductive BorrowEff where
  | getBookReq (q : String)
  | borrowReq (customerId bookId : Nat)
  | refresh
deriving DecidableEq, BEq

def borrowNoCopiesMsg (b : Book) : String :=
  "Book \"" ++ b.title ++ "\" has no available copies (" ++
    toString b.available_copies ++ "/" ++ toString b.copies_count ++ ")"

def bookNotFoundMsg (enteredId : String) : String :=
  "Book with ID \"" ++ enteredId ++ "\" not found"

/-- Embedding of `BorrowBook.searchBookCopy`: a blank (whitespace-only)
entered id sets the error message and returns before any request; otherwise
the transient fields are reset, `getBook` is called on the trimmed id, and
the result either marks an available copy, or sets the no-copies message
(book found with zero available copies), or sets the not-found message
(call threw); the searching flag is lowered at the end. -/
def searchBookCopy (oracle : Option Book) (s : BorrowState) :
    BorrowState × List BorrowEff :=
  if trimWs s.bookId = "" then
    ({ s with errorMessage := "Please enter book ID" }, [])
  else
    let s1 := { s with
        isSearching := true
        errorMessage := ""
        bookData := none
        availableCopy := none }
    match oracle with
    | some book =>
      let s2 := { s1 with bookData := some book }
      if book.available_copies > 0 then
        ({ s2 with availableCopy := some book.id, isSearching := false },
         [BorrowEff.getBookReq (trimWs s.bookId)])
      else
        ({ s2 with errorMessage := borrowNoCopiesMsg book, isSearching := false },
         [BorrowEff.getBookReq (trimWs s.bookId)])
    | none =>
      ({ s1 with errorMessage := bookNotFoundMsg s.bookId, isSearching := false },
       [BorrowEff.getBookReq (trimWs s.bookId)])

/-- Embedding of `BorrowBook.handleBorrowConfirm`: the handler returns at
once unless both the customer id and the searched book id are present and
truthy (in JavaScript the id 0 is falsy); on success the four local fields
are reset and the parent refresh callback runs once; on failure the server
message (or a fallback when it is empty) is shown; the borrowing flag is
lowered at the end. The oracle is the borrow-call outcome. -/
def handleBorrowConfirm (cust : Option Customer) (oracle : Except String Unit)
    (s : BorrowState) : BorrowState × List BorrowEff :=
  match cust, s.bookData with
  | some c, some b =>
    if c.id = 0 ∨ b.id = 0 then (s, [])
    else
      let s1 := { s with isBorrowing := true }
      match oracle with
      | Except.ok _ =>
        ({ s1 with
            bookId := ""
            bookData := none
            availableCopy := none
            errorMessage := ""
            isBorrowing := false },
         [BorrowEff.borrowReq c.id b.id, BorrowEff.refresh])
      | Except.error msg =>
        ({ s1 with
            errorMessage := if msg = "" then "Failed to borrow book" else msg
            isBorrowing := false },
         [BorrowEff.borrowReq c.id b.id])
  | _, _ => (s, [])

/-- Embedding of `BorrowBook.handleCancel`: it clears the fetched book data,
the available-copy marker and the error message. -/
def handleCancel (s : BorrowState) : BorrowState × List BorrowEff :=
  ({ s with bookData := none, availableCopy := none, errorMessage := "" }, [])

/-- The borrow-confirmation block (with the Borrow and Cancel buttons) is
rendered only when both `bookData` and `availableCopy` are set, and the
Borrow button is further disabled while borrowing. -/
def confirmEnabled (s : BorrowState) : Bool :=
  s.bookData.isSome && s.availableCopy.isSome && !s.isBorrowing

inductive BorrowEvent where
  | search (oracle : Option Book)
  | confirm (oracle : Except String Unit)
  | cancel

/-- User-level step relation for the borrow flow: an event is available only
when its control is rendered and enabled. -/
def borrowStep (cust : Option Customer) (e : BorrowEvent) (s : BorrowState) :
    Option (BorrowState × List BorrowEff) :=
  match e with
  | BorrowEvent.search o =>
      if s.isSearching || s.isBorrowing then none else some (searchBookCopy o s)
  | BorrowEvent.confirm o =>
      if confirmEnabled s then some (handleBorrowConfirm cust o s) else none
  | BorrowEvent.cancel =>
      if confirmEnabled s then some (handleCancel s) else none

/-! Return flow (`SearchProperties` in src/unnamed/part_001). -/

structure SPState where
  borrowed : List BorrowRecord
  isLoading : Bool
  returningId : Option Nat
deriving DecidableEq

inductive SPEff where
  | returnReq (customerId eventId : Nat)
  | fetchReq (customerId : Nat)
  | alert (msg : String)
deriving DecidableEq, BEq

inductive FetchOutcome where
  | ok (rs : List BorrowRecord)
  | err
deriving DecidableEq

inductive ReturnOutcome where
  | ok (refetch : FetchOutcome)
  | err (msg : String)
deriving DecidableEq

/-- Embedding of `SearchProperties.loadBorrowed`: without a truthy customer
id the list is cleared and no request is made; otherwise the full borrowed
list is fetched and replaces the local list (an empty list on failure). -/
def loadBorrowed (cid : Option Nat) (oracle : FetchOutcome) (s : SPState) :
    SPState × List SPEff :=
  match cid with
  | none => ({ s with borrowed := [] }, [])
  | some c =>
    if c = 0 then ({ s with borrowed := [] }, [])
    else
      match oracle with
      | FetchOutcome.ok rs =>
          ({ s with isLoading := false, borrowed := rs }, [SPEff.fetchReq c])
      | FetchOutcome.err =>
          ({ s with isLoading := false, borrowed := [] }, [SPEff.fetchReq c])

/-- Embedding of `SearchProperties.handleReturn`: with a truthy customer id,
the returning-id marker is set to the record id (the in-flight state, first
component), the return request is issued, on success the borrowed list is
refetched in full via `loadBorrowed`, on failure an alert surfaces the error
message, and the marker is cleared at the end (final state, second
component). -/
def handleReturn (cid : Option Nat) (eid : Nat) (outcome : ReturnOutcome)
    (s : SPState) : SPState × SPState × List SPEff :=
  match cid with
  | none => (s, s, [])
  | some c =>
    if c = 0 then (s, s, [])
    else
      let mid := { s with returningId := some eid }
      match outcome with
      | ReturnOutcome.ok refetch =>
        let r2 := loadBorrowed (some c) refetch mid
        (mid, { r2.1 with returningId := none }, SPEff.returnReq c eid :: r2.2)
      | ReturnOutcome.err msg =>
        (mid, { mid with returningId := none },
         [SPEff.returnReq c eid,
          SPEff.alert (if msg = "" then "Return failed" else msg)])

/-- Disabled condition of the per-row Return button:
`isLoading || returningId === row.event_id`. -/
def rowDisabled (s : SPState) (r : BorrowRecord) : Bool :=
  s.isLoading || (s.returningId == some r.event_id)

/-- Selects the return-mutation requests among the effects of the return
flow. -/
def isReturnReqEff : SPEff → Bool
  | SPEff.returnReq _ _ => true
  | _ => false

/-! Theorems. -/

/-- C9 counterexample: a non-2xx response whose body parses as JSON and does
contain a `detail` field, namely the empty string, is reported with the
generic status-derived message, not with the value of the `detail` field,
because JavaScript `||` treats the empty string as falsy. The claim as
stated is therefore false at this input. -/
theorem c9_counterexample :
    (FetchResp.mk false 404 (some (ErrBody.mk (some "")))).body.bind
        ErrBody.detail = some "" ∧
    requestLogic ErrBody ErrBody.detail
        (FetchResp.mk false 404 (some (ErrBody.mk (some "")))) =
      Except.error (ReqError.httpError (genericHttpMsg 404)) ∧
    genericHttpMsg 404 ≠ "" := by
  refine ⟨rfl, rfl, ?_⟩
  decide

/-- C9 amended: through the client wrapper a 2xx response returns the parsed
JSON body (and rethrows the parse failure when the body does not parse); a
non-2xx response throws, with the body `detail` field as the message when
the body parses as JSON and carries a non-empty `detail`, and with the
generic status-derived message otherwise (no parseable body, no `detail`
field, or an empty `detail`). -/
theorem c9_request_behavior (α : Type) (detail : α → Option String)
    (r : FetchResp α) :
    (r.ok = true → ∀ b, r.body = some b → requestLogic α detail r = Except.ok b) ∧
    (r.ok = true → r.body = none →
      requestLogic α detail r = Except.error ReqError.parseFailure) ∧
    (r.ok = false → ∀ b d, r.body = some b → detail b = some d → d ≠ "" →
      requestLogic α detail r = Except.error (ReqError.httpError d)) ∧
    (r.ok = false → (r.body.bind detail = none ∨ r.body.bind detail = some "") →
      requestLogic α detail r =
        Except.error (ReqError.httpError (genericHttpMsg r.status))) := by
  obtain ⟨ok, status, body⟩ := r
  refine ⟨?_, ?_, ?_, ?_⟩
  · rintro rfl b rfl
    simp [requestLogic]
  · rintro rfl rfl
    simp [requestLogic]
  · rintro rfl b d rfl hd hne
    simp [requestLogic, hd, hne]
  · rintro rfl hd
    rcases hd with hd | hd <;> simp [requestLogic, hd]

/-- C9 witness: the amended behavior evaluated at concrete responses, one
per case. -/
theorem c9_request_behavior_witness :
    requestLogic ErrBody ErrBody.detail
        (FetchResp.mk true 200 (some (ErrBody.mk none))) =
      Except.ok (ErrBody.mk none) ∧
    requestLogic ErrBody ErrBody.detail
        (FetchResp.mk false 500 (some (ErrBody.mk (some "Nope")))) =
      Except.error (ReqError.httpError "Nope") ∧
    requestLogic ErrBody ErrBody.detail (FetchResp.mk false 503 none) =
      Except.error (ReqError.httpError (genericHttpMsg 503)) := by
  refine ⟨?_, ?_, ?_⟩
  · exact (c9_request_behavior ErrBody ErrBody.detail
      (FetchResp.mk true 200 (some (ErrBody.mk none)))).1 rfl (ErrBody.mk none) rfl
  · exact (c9_request_behavior ErrBody ErrBody.detail
      (FetchResp.mk false 500 (some (ErrBody.mk (some "Nope"))))).2.2.1 rfl
      (ErrBody.mk (some "Nope")) "Nope" rfl rfl (by decide)
  · exact (c9_request_behavior ErrBody ErrBody.detail
      (FetchResp.mk false 503 none)).2.2.2 rfl (Or.inl rfl)

/-- C10: submitting a blank or whitespace-only book identifier sets the
error message to the fixed text, issues no request, and leaves every other
local field of the borrow component unchanged. -/
theorem c10_blank_book_id (s : BorrowState) (oracle : Option Book)
    (h : trimWs s.bookId = "") :
    (searchBookCopy oracle s).1.errorMessage = "Please enter book ID" ∧
    (searchBookCopy oracle s).1.bookId = s.bookId ∧
    (searchBookCopy oracle s).1.bookData = s.bookData ∧
    (searchBookCopy oracle s).1.availableCopy = s.availableCopy ∧
    (searchBookCopy oracle s).1.isSearching = s.isSearching ∧
    (searchBookCopy oracle s).1.isBorrowing = s.isBorrowing ∧
    (searchBookCopy oracle s).2 = [] := by
  simp [searchBookCopy, h]

/-- C10 witness: the guard evaluated on a whitespace-only identifier with a
book oracle standing by. -/
theorem c10_blank_book_id_witness :
    (searchBookCopy (some (Book.mk 1 "T" none "" 3 2 0))
        (BorrowState.mk "  " none none false false "old")).1.errorMessage =
      "Please enter book ID" ∧
    (searchBookCopy (some (Book.mk 1 "T" none "" 3 2 0))
        (BorrowState.mk "  " none none false false "old")).1.bookId = "  " ∧
    (searchBookCopy (some (Book.mk 1 "T" none "" 3 2 0))
        (BorrowState.mk "  " none none false false "old")).2 = [] := by
  have h := c10_blank_book_id (BorrowState.mk "  " none none false false "old")
    (some (Book.mk 1 "T" none "" 3 2 0)) (by decide)
  exact ⟨h.1, h.2.1, h.2.2.2.2.2.2⟩

/-- C7 counterexample: the claim says cancel clears the entered book
identifier, but `handleCancel` leaves `bookId` untouched: cancelling from a
state whose entered identifier is 42 keeps it at 42. -/
theorem c7_counterexample :
    (handleCancel (BorrowState.mk "42" (some (Book.mk 7 "T" none "" 1 1 0))
        (some 7) false false "boom")).1.bookId = "42" ∧
    ("42" : String) ≠ "" := by
  refine ⟨rfl, ?_⟩
  decide

/-- C7 amended: the cancel action clears the fetched book data, the
available-copy marker and the error message, issues no request to the
server, and leaves the entered book identifier and the loading flags
unchanged. -/
theorem c7_cancel_frame (s : BorrowState) :
    (handleCancel s).1.bookData = none ∧
    (handleCancel s).1.availableCopy = none ∧
    (handleCancel s).1.errorMessage = "" ∧
    (handleCancel s).1.bookId = s.bookId ∧
    (handleCancel s).1.isSearching = s.isSearching ∧
    (handleCancel s).1.isBorrowing = s.isBorrowing ∧
    (handleCancel s).2 = [] := by
  simp [handleCancel]

/-- C4: after a successful borrow mutation the four local fields are reset
to their initial values, the borrowing flag is lowered, and the effect list
contains the single borrow request followed by exactly one parent refresh
callback. -/
theorem c4_borrow_success_resets (cust : Option Customer) (c : Customer)
    (s : BorrowState) (b : Book)
    (hc : cust = some c) (hcid : c.id ≠ 0)
    (hb : s.bookData = some b) (hbid : b.id ≠ 0) :
    (handleBorrowConfirm cust (Except.ok ()) s).1.bookId =
      initBorrowState.bookId ∧
    (handleBorrowConfirm cust (Except.ok ()) s).1.bookData =
      initBorrowState.bookData ∧
    (handleBorrowConfirm cust (Except.ok ()) s).1.availableCopy =
      initBorrowState.availableCopy ∧
    (handleBorrowConfirm cust (Except.ok ()) s).1.errorMessage =
      initBorrowState.errorMessage ∧
    (handleBorrowConfirm cust (Except.ok ()) s).1.isBorrowing = false ∧
    (handleBorrowConfirm cust (Except.ok ()) s).2 =
      [BorrowEff.borrowReq c.id b.id, BorrowEff.refresh] ∧
    (handleBorrowConfirm cust (Except.ok ()) s).2.count BorrowEff.refresh = 1 := by
  subst hc
  have heff : (handleBorrowConfirm (some c) (Except.ok ()) s).2 =
      [BorrowEff.borrowReq c.id b.id, BorrowEff.refresh] := by
    simp [handleBorrowConfirm, hb, hcid, hbid]
  refine ⟨?_, ?_, ?_, ?_, ?_, heff, ?_⟩
  · simp [handleBorrowConfirm, hb, hcid, hbid, initBorrowState]
  · simp [handleBorrowConfirm, hb, hcid, hbid, initBorrowState]
  · simp [handleBorrowConfirm, hb, hcid, hbid, initBorrowState]
  · simp [handleBorrowConfirm, hb, hcid, hbid, initBorrowState]
  · simp [handleBorrowConfirm, hb, hcid, hbid]
  · rw [heff]
    rfl

/-- C4 witness: a concrete successful confirmation for customer 3 and book
5, evaluated. -/
theorem c4_borrow_success_resets_witness :
    (handleBorrowConfirm (some (Customer.mk 3 "A" "B" "" "" ""))
        (Except.ok ())
        (BorrowState.mk "5" (some (Book.mk 5 "T" none "" 2 1 0)) (some 5)
          false false "")).1.bookId = initBorrowState.bookId ∧
    (handleBorrowConfirm (some (Customer.mk 3 "A" "B" "" "" ""))
        (Except.ok ())
        (BorrowState.mk "5" (some (Book.mk 5 "T" none "" 2 1 0)) (some 5)
          false false "")).2 =
      [BorrowEff.borrowReq 3 5, BorrowEff.refresh] ∧
    (handleBorrowConfirm (some (Customer.mk 3 "A" "B" "" "" ""))
        (Except.ok ())
        (BorrowState.mk "5" (some (Book.mk 5 "T" none "" 2 1 0)) (some 5)
          false false "")).2.count BorrowEff.refresh = 1 := by
  have h := c4_borrow_success_resets (some (Customer.mk 3 "A" "B" "" "" ""))
    (Customer.mk 3 "A" "B" "" "" "")
    (BorrowState.mk "5" (some (Book.mk 5 "T" none "" 2 1 0)) (some 5)
      false false "")
    (Book.mk 5 "T" none "" 2 1 0) rfl (by decide) rfl (by decide)
  exact ⟨h.1, h.2.2.2.2.2.1, h.2.2.2.2.2.2⟩

/-- C6: searching for a book with zero available copies leaves the borrow
component in the error state: the error message is the no-copies text,
which contains the book title and both copy counts, no available copy is
marked, the confirmation block is not rendered, and consequently the
confirm event is not available, so no borrow mutation can be issued from
that state. -/
theorem c6_zero_copies (s : BorrowState) (book : Book) (cust : Option Customer)
    (oracle : Except String Unit)
    (hid : trimWs s.bookId ≠ "") (hz : book.available_copies = 0) :
    (searchBookCopy (some book) s).1.errorMessage = borrowNoCopiesMsg book ∧
    (∃ pre post : String,
      (searchBookCopy (some book) s).1.errorMessage = pre ++ (book.title ++ post)) ∧
    (∃ pre post : String,
      (searchBookCopy (some book) s).1.errorMessage =
        pre ++ (toString book.available_copies ++
          ("/" ++ (toString book.copies_count ++ post)))) ∧
    (searchBookCopy (some book) s).1.availableCopy = none ∧
    (searchBookCopy (some book) s).1.bookData = some book ∧
    confirmEnabled (searchBookCopy (some book) s).1 = false ∧
    borrowStep cust (BorrowEvent.confirm oracle) (searchBookCopy (some book) s).1 =
      none := by
  have hmsg : (searchBookCopy (some book) s).1.errorMessage =
      borrowNoCopiesMsg book := by
    simp [searchBookCopy, hid, hz]
  have hcopy : (searchBookCopy (some book) s).1.availableCopy = none := by
    simp [searchBookCopy, hid, hz]
  have hen : confirmEnabled (searchBookCopy (some book) s).1 = false := by
    simp [confirmEnabled, hcopy]
  refine ⟨hmsg, ?_, ?_, hcopy, ?_, hen, ?_⟩
  · refine ⟨"Book \"", "\" has no available copies (" ++
      (toString book.available_copies ++
        ("/" ++ (toString book.copies_count ++ ")"))), ?_⟩
    rw [hmsg]
    simp only [borrowNoCopiesMsg, String.append_assoc]
  · refine ⟨"Book \"" ++ book.title ++ "\" has no available copies (", ")", ?_⟩
    rw [hmsg]
    simp only [borrowNoCopiesMsg, String.append_assoc]
  · simp [searchBookCopy, hid, hz]
  · simp [borrowStep, hen]

/-- C6 witness: the zero-copies search evaluated for a concrete book with
0 of 4 copies available, from a fresh component with identifier 9
entered. -/
theorem c6_zero_copies_witness :
    (searchBookCopy (some (Book.mk 9 "Dune" none "U9" 4 0 7))
        (BorrowState.mk "9" none none false false "")).1.errorMessage =
      borrowNoCopiesMsg (Book.mk 9 "Dune" none "U9" 4 0 7) ∧
    (searchBookCopy (some (Book.mk 9 "Dune" none "U9" 4 0 7))
        (BorrowState.mk "9" none none false false "")).1.availableCopy = none ∧
    borrowStep none (BorrowEvent.confirm (Except.ok ()))
      (searchBookCopy (some (Book.mk 9 "Dune" none "U9" 4 0 7))
        (BorrowState.mk "9" none none false false "")).1 = none := by
  have h := c6_zero_copies (BorrowState.mk "9" none none false false "")
    (Book.mk 9 "Dune" none "U9" 4 0 7) none (Except.ok ()) (by decide) rfl
  exact ⟨h.1, h.2.2.2.1, h.2.2.2.2.2.2⟩

/-- C5: for a selected customer (truthy id) and a borrow-record id, the
return handler issues exactly one return request; in the in-flight state
only the row whose record id matches is disabled (the rows are rendered
only when the list is not loading, so the loading flag is false on entry);
on server failure the borrowed list is unchanged and an alert surfaces the
message; on a successful return followed by a successful refetch the
borrowed list is exactly the refetched server list, whatever the previous
local list was. -/
theorem c5_return_flow (c eid : Nat) (outcome : ReturnOutcome) (s : SPState)
    (hc : c ≠ 0) (hl : s.isLoading = false) :
    (∀ r : BorrowRecord,
      rowDisabled (handleReturn (some c) eid outcome s).1 r = true ↔
        r.event_id = eid) ∧
    (handleReturn (some c) eid outcome s).2.1.returningId = none ∧
    (handleReturn (some c) eid outcome s).2.2.filter isReturnReqEff =
      [SPEff.returnReq c eid] ∧
    (∀ msg, outcome = ReturnOutcome.err msg →
      (handleReturn (some c) eid outcome s).2.1.borrowed = s.borrowed ∧
      SPEff.alert (if msg = "" then "Return failed" else msg) ∈
        (handleReturn (some c) eid outcome s).2.2) ∧
    (∀ rs, outcome = ReturnOutcome.ok (FetchOutcome.ok rs) →
      (handleReturn (some c) eid outcome s).2.1.borrowed = rs ∧
      SPEff.fetchReq c ∈ (handleReturn (some c) eid outcome s).2.2) := by
  refine ⟨?_, ?_, ?_, ?_, ?_⟩
  · intro r
    cases outcome with
    | ok refetch =>
      simp only [handleReturn, rowDisabled, hc, hl, ite_false, Bool.false_or,
        beq_iff_eq, Option.some.injEq]
      exact eq_comm
    | err msg =>
      simp only [handleReturn, rowDisabled, hc, hl, ite_false, Bool.false_or,
        beq_iff_eq, Option.some.injEq]
      exact eq_comm
  · cases outcome with
    | ok refetch =>
      cases refetch <;> simp [handleReturn, loadBorrowed, hc]
    | err msg => simp [handleReturn, hc]
  · cases outcome with
    | ok refetch =>
      cases refetch <;> simp [handleReturn, loadBorrowed, hc, isReturnReqEff]
    | err msg =>
      simp [handleReturn, hc, isReturnReqEff]
  · rintro msg rfl
    simp [handleReturn, hc]
  · rintro rs rfl
    simp [handleReturn, loadBorrowed, hc]

/-- C5 witness: customer 4 returning record 11 among two borrowed rows,
evaluated on both the failure and the success outcome. -/
theorem c5_return_flow_witness :
    (rowDisabled
      (handleReturn (some 4) 11 (ReturnOutcome.err "boom")
        (SPState.mk [BorrowRecord.mk 11 1 "A" "" "", BorrowRecord.mk 12 2 "B" "" ""]
          false none)).1
      (BorrowRecord.mk 12 2 "B" "" "") = true ↔ (12 : Nat) = 11) ∧
    (handleReturn (some 4) 11 (ReturnOutcome.err "boom")
        (SPState.mk [BorrowRecord.mk 11 1 "A" "" "", BorrowRecord.mk 12 2 "B" "" ""]
          false none)).2.1.borrowed =
      [BorrowRecord.mk 11 1 "A" "" "", BorrowRecord.mk 12 2 "B" "" ""] ∧
    (handleReturn (some 4) 11 (ReturnOutcome.ok (FetchOutcome.ok
        [BorrowRecord.mk 12 2 "B" "" ""]))
        (SPState.mk [BorrowRecord.mk 11 1 "A" "" "", BorrowRecord.mk 12 2 "B" "" ""]
          false none)).2.1.borrowed = [BorrowRecord.mk 12 2 "B" "" ""] := by
  have h1 := c5_return_flow 4 11 (ReturnOutcome.err "boom")
    (SPState.mk [BorrowRecord.mk 11 1 "A" "" "", BorrowRecord.mk 12 2 "B" "" ""]
      false none) (by decide) rfl
  have h2 := c5_return_flow 4 11 (ReturnOutcome.ok (FetchOutcome.ok
      [BorrowRecord.mk 12 2 "B" "" ""]))
    (SPState.mk [BorrowRecord.mk 11 1 "A" "" "", BorrowRecord.mk 12 2 "B" "" ""]
      false none) (by decide) rfl
  exact ⟨h1.1 (BorrowRecord.mk 12 2 "B" "" ""),
    (h1.2.2.2.1 "boom" rfl).1,
    (h2.2.2.2.2 [BorrowRecord.mk 12 2 "B" "" ""] rfl).1⟩

/-- C8: in the book search component, when a book is selected and the input
is edited to a value different from the selected book title, the input step
itself resets the selection to none and notifies the parent, and makes no
network request (lookups are only dispatched later, by a timer firing), so
the invalidation happens before any network call. -/
theorem c8_edit_invalidates_selection (t : Nat) (v : String) (s : BookState)
    (b : Book) (hs : s.selectedBook = some b) (hv : v ≠ b.title) :
    (bookInput t v s).1.selectedBook = none ∧
    BookEff.notify none ∈ (bookInput t v s).2 ∧
    requestsOf (bookInput t v s).2 = [] := by
  by_cases he : trimWs v = "" <;>
    simp [bookInput, hs, hv, he, requestsOf]

/-- C8 witness: editing the input from the selected title Dune to Dun
evaluated on a concrete selected state. -/
theorem c8_edit_invalidates_selection_witness :
    (bookInput 500 "Dun"
      (BookState.mk false "Dune" [] false (some (Book.mk 9 "Dune" none "U9" 4 1 7))
        "Dune" 3 none [])).1.selectedBook = none ∧
    BookEff.notify none ∈
      (bookInput 500 "Dun"
        (BookState.mk false "Dune" [] false (some (Book.mk 9 "Dune" none "U9" 4 1 7))
          "Dune" 3 none [])).2 ∧
    requestsOf (bookInput 500 "Dun"
      (BookState.mk false "Dune" [] false (some (Book.mk 9 "Dune" none "U9" 4 1 7))
        "Dune" 3 none [])).2 = [] :=
  c8_edit_invalidates_selection 500 "Dun"
    (BookState.mk false "Dune" [] false (some (Book.mk 9 "Dune" none "U9" 4 1 7))
      "Dune" 3 none [])
    (Book.mk 9 "Dune" none "U9" 4 1 7) rfl (by decide)

/-- C1 counterexample: the claim quantifies over every search component, but
the customer search bar applies completions unconditionally. In the run
below the user types Al then Ali; the lookup for Ali (request 1) completes
first with the Alice suggestion, then the stale lookup for Al (request 0)
completes with the Alba suggestion and overwrites the suggestion state,
although its query Al differs from the current input Ali. The final visible
suggestions answer Al, not the most recent input. -/
theorem c1_counterexample :
    (custRun [CustEvent.input "Al", CustEvent.input "Ali",
        CustEvent.complete 1 (some [Suggestion.mk 2 "Alice" none none none])]
        custInit).map (fun p => (p.1.searchValue, p.1.suggestions)) =
      some ("Ali", [Suggestion.mk 2 "Alice" none none none]) ∧
    (custRun [CustEvent.input "Al", CustEvent.input "Ali",
        CustEvent.complete 1 (some [Suggestion.mk 2 "Alice" none none none]),
        CustEvent.complete 0 (some [Suggestion.mk 1 "Alba" none none none])]
        custInit).map (fun p => (p.1.searchValue, p.1.suggestions)) =
      some ("Ali", [Suggestion.mk 1 "Alba" none none none]) ∧
    ("Al" : String) ≠ "Ali" := by
  refine ⟨rfl, rfl, ?_⟩
  decide

/-- C1 amended: in the book search component a lookup completion is applied
to the suggestion state only when its sequence tag equals the latest issued
sequence number and its query equals the stored current query; any other
completion leaves the visible state unchanged. (The customer search bar has
no such guard and applies every completion unconditionally.) -/
theorem c1_stale_guard (s : BookState) (id : Nat) (term : String)
    (outcome : Option (List Suggestion)) :
    (¬(s.currentSearch = term ∧ s.requestId = id) →
      (bookComplete id term outcome s).1.suggestions = s.suggestions ∧
      (bookComplete id term outcome s).1.showPopup = s.showPopup ∧
      (bookComplete id term outcome s).1.isLoading = s.isLoading ∧
      (bookComplete id term outcome s).1.selectedBook = s.selectedBook ∧
      (bookComplete id term outcome s).1.searchValue = s.searchValue ∧
      (bookComplete id term outcome s).2 = []) ∧
    (s.currentSearch = term → s.requestId = id →
      (∀ r, outcome = some r →
        (bookComplete id term outcome s).1.suggestions = r ∧
        (bookComplete id term outcome s).1.showPopup = true) ∧
      (outcome = none →
        (bookComplete id term outcome s).1.suggestions = [])) := by
  constructor
  · intro hguard
    simp [bookComplete, hguard]
  · intro h1 h2
    constructor
    · rintro r rfl
      simp [bookComplete, h1, h2]
    · rintro rfl
      simp [bookComplete, h1, h2]

/-- C1 witness: the guard evaluated on a concrete state awaiting request 2
for Ali: the stale completion of request 1 for Al leaves the suggestions
unchanged, while the matching completion of request 2 applies. -/
theorem c1_stale_guard_witness :
    (bookComplete 1 "Al" (some [Suggestion.mk 1 "Alba" none none none])
      (BookState.mk false "Ali" [] true none "Ali" 2 none
        [(1, "Al"), (2, "Ali")])).1.suggestions = [] ∧
    (bookComplete 2 "Ali" (some [Suggestion.mk 2 "Alice" none none none])
      (BookState.mk false "Ali" [] true none "Ali" 2 none
        [(1, "Al"), (2, "Ali")])).1.suggestions =
      [Suggestion.mk 2 "Alice" none none none] := by
  have h1 := (c1_stale_guard
    (BookState.mk false "Ali" [] true none "Ali" 2 none [(1, "Al"), (2, "Ali")])
    1 "Al" (some [Suggestion.mk 1 "Alba" none none none])).1 (by decide)
  have h2 := ((c1_stale_guard
    (BookState.mk false "Ali" [] true none "Ali" 2 none [(1, "Al"), (2, "Ali")])
    2 "Ali" (some [Suggestion.mk 2 "Alice" none none none])).2 rfl rfl).1
    [Suggestion.mk 2 "Alice" none none none] rfl
  exact ⟨h1.1, h2.1⟩

/-- C2 counterexample: the claim covers the customer variant too, but the
customer search bar has no timer: typing Al then Ali (at any spacing,
including within 100ms, since no step of this component consults the clock)
issues two requests, one for Al and one for Ali, not exactly one. -/
theorem c2_counterexample :
    (custRun [CustEvent.input "Al", CustEvent.input "Ali"] custInit).map
      Prod.snd = some [CustEff.request 0 "Al", CustEff.request 1 "Ali"] ∧
    [CustEff.request 0 "Al", CustEff.request 1 "Ali"].length ≠ 1 := by
  refine ⟨rfl, ?_⟩
  decide

/-- C2 amended: in the book search component an input change never issues a
request and replaces any pending timer with a fresh 300ms timer carrying a
fresh sequence number (so a lookup is dispatched only when a timer fires
after a 300ms quiet interval); in particular typing Al at t=0 and Ali at
t=100 and letting the timer fire at t=400 issues exactly one request, for
Ali. -/
theorem c2_debounce (t : Nat) (v : String) (s : BookState) :
    requestsOf (bookInput t v s).2 = [] ∧
    (trimWs v ≠ "" →
      (bookInput t v s).1.pendingTimer =
        some (PendTimer.mk (s.requestId + 1) (trimWs v) (t + 300)) ∧
      (bookInput t v s).1.requestId = s.requestId + 1) ∧
    (bookRun [(0, BookEvent.input "Al"), (100, BookEvent.input "Ali"),
        (400, BookEvent.fire)] bookInit).map (fun p => requestsOf p.2) =
      some [BookEff.request 2 "Ali"] := by
  refine ⟨?_, ?_, rfl⟩
  · cases hsel : s.selectedBook with
    | none =>
      by_cases he : trimWs v = "" <;> simp [bookInput, hsel, he, requestsOf]
    | some b =>
      by_cases hvb : v = b.title
      · subst hvb
        by_cases he : trimWs b.title = "" <;>
          simp [bookInput, hsel, he, requestsOf]
      · by_cases he : trimWs v = "" <;>
          simp [bookInput, hsel, hvb, he, requestsOf]
  · intro he
    cases hsel : s.selectedBook with
    | none => simp [bookInput, hsel, he]
    | some b =>
      by_cases hvb : v = b.title
      · subst hvb
        simp [bookInput, hsel, he]
      · simp [bookInput, hsel, hvb, he]

/-- C2 witness: a keystroke with a pending timer evaluated concretely: the
old timer is replaced by a fresh one, no request is emitted. -/
theorem c2_debounce_witness :
    requestsOf (bookInput 100 "Ali"
      (BookState.mk false "Al" [] false none "" 1
        (some (PendTimer.mk 1 "Al" 300)) [])).2 = [] ∧
    (bookInput 100 "Ali"
      (BookState.mk false "Al" [] false none "" 1
        (some (PendTimer.mk 1 "Al" 300)) [])).1.pendingTimer =
      some (PendTimer.mk 2 "Ali" 400) := by
  have h := c2_debounce 100 "Ali"
    (BookState.mk false "Al" [] false none "" 1
      (some (PendTimer.mk 1 "Al" 300)) [])
  exact ⟨h.1, (h.2.1 (by decide)).1⟩

/-- C3 counterexample: the claim covers the customer variant too, but on a
cleared input the customer search bar only clears its suggestions and
closes its popup: it emits no effect at all, so the parent is not notified
that no entity is selected (the component does not even track a
selection). -/
theorem c3_counterexample :
    (custInput ""
      (CustState.mk true "Ali" [Suggestion.mk 2 "Alice" none none none]
        false [] 2)).2 = [] ∧
    (custInput ""
      (CustState.mk true "Ali" [Suggestion.mk 2 "Alice" none none none]
        false [] 2)).1.suggestions = [] ∧
    (custInput ""
      (CustState.mk true "Ali" [Suggestion.mk 2 "Alice" none none none]
        false [] 2)).1.showPopup = false := by
  refine ⟨rfl, rfl, rfl⟩

/-- C3 amended: in the book search component, clearing the input (empty or
whitespace-only) synchronously empties the suggestions, closes the popup,
resets the selection and the current-query marker, cancels the pending
timer, notifies the parent of no selection, and makes no request; any
in-flight completion (whose query is necessarily non-empty) then leaves the
cleared state cleared. In the customer variant, clearing the input empties
the suggestions and closes the popup, but no notification is sent. -/
theorem c3_clear_input (t : Nat) (v : String) (s : BookState)
    (hv : trimWs v = "") :
    (bookInput t v s).1.suggestions = [] ∧
    (bookInput t v s).1.showPopup = false ∧
    (bookInput t v s).1.selectedBook = none ∧
    (bookInput t v s).1.currentSearch = "" ∧
    (bookInput t v s).1.pendingTimer = none ∧
    BookEff.notify none ∈ (bookInput t v s).2 ∧
    requestsOf (bookInput t v s).2 = [] ∧
    (∀ id term outcome, term ≠ "" →
      (bookComplete id term outcome (bookInput t v s).1).1.suggestions = [] ∧
      (bookComplete id term outcome (bookInput t v s).1).1.showPopup = false ∧
      (bookComplete id term outcome (bookInput t v s).1).1.selectedBook = none) ∧
    (∀ s2 : CustState,
      (custInput "" s2).1.suggestions = [] ∧
      (custInput "" s2).1.showPopup = false ∧
      (custInput "" s2).2 = []) := by
  have H : (bookInput t v s).1.suggestions = [] ∧
      (bookInput t v s).1.showPopup = false ∧
      (bookInput t v s).1.selectedBook = none ∧
      (bookInput t v s).1.currentSearch = "" ∧
      (bookInput t v s).1.pendingTimer = none ∧
      BookEff.notify none ∈ (bookInput t v s).2 ∧
      requestsOf (bookInput t v s).2 = [] := by
    cases hsel : s.selectedBook with
    | none => simp [bookInput, hsel, hv, requestsOf]
    | some b =>
      by_cases hvb : v = b.title
      · subst hvb
        simp [bookInput, hsel, hv, requestsOf]
      · simp [bookInput, hsel, hvb, hv, requestsOf]
  obtain ⟨h1, h2, h3, h4, h5, h6, h7⟩ := H
  refine ⟨h1, h2, h3, h4, h5, h6, h7, ?_, ?_⟩
  · intro id term outcome hterm
    have hng : ¬((bookInput t v s).1.currentSearch = term ∧
        (bookInput t v s).1.requestId = id) := by
      rw [h4]
      rintro ⟨hts, -⟩
      exact hterm hts.symm
    refine ⟨?_, ?_, ?_⟩ <;> simp [bookComplete, hng, h1, h2, h3]
  · intro s2
    have htw : trimWs "" = "" := rfl
    simp [custInput, htw]

/-- C3 witness: clearing a book search bar that has a selection, pending
timer and visible suggestions, evaluated concretely. -/
theorem c3_clear_input_witness :
    (bookInput 900 " "
      (BookState.mk true "Dune" [Suggestion.mk 9 "Dune" none none none] false
        (some (Book.mk 9 "Dune" none "U9" 4 1 7)) "Dune" 3
        (some (PendTimer.mk 3 "Dune" 600)) [(3, "Dune")])).1.suggestions = [] ∧
    (bookInput 900 " "
      (BookState.mk true "Dune" [Suggestion.mk 9 "Dune" none none none] false
        (some (Book.mk 9 "Dune" none "U9" 4 1 7)) "Dune" 3
        (some (PendTimer.mk 3 "Dune" 600)) [(3, "Dune")])).1.selectedBook = none ∧
    BookEff.notify none ∈
      (bookInput 900 " "
        (BookState.mk true "Dune" [Suggestion.mk 9 "Dune" none none none] false
          (some (Book.mk 9 "Dune" none "U9" 4 1 7)) "Dune" 3
          (some (PendTimer.mk 3 "Dune" 600)) [(3, "Dune")])).2 := by
  have h := c3_clear_input 900 " "
    (BookState.mk true "Dune" [Suggestion.mk 9 "Dune" none none none] false
      (some (Book.mk 9 "Dune" none "U9" 4 1 7)) "Dune" 3
      (some (PendTimer.mk 3 "Dune" 600)) [(3, "Dune")]) (by decide)
  exact ⟨h.1, h.2.2.1, h.2.2.2.2.2.1⟩

end CrazyLib
